import Mathlib

/-!
Verification of tdesktop's notification-settings core
(`Telegram/SourceFiles/data/data_notify_settings.cpp`).

The embedding models the wire-level sound record, the remote settings
record (field presence stands for the corresponding flag bit being set,
as the MTP deserializer guarantees), the per-peer `NotifySettingsValue`
and the outward-facing `NotifySettings` tracker.  Stateful C++ methods
returning `bool` become pure functions returning `Bool × state`.
-/

namespace Data

/-- Wire-level notification sound: the closed four-way tagged union
`NotificationSound` of the MTP scheme. -/
inductive NotificationSound where
  | notificationSoundDefault
  | notificationSoundNone
  | notificationSoundLocal (title : String) (data : String)
  | notificationSoundRingtone (id : Int)
deriving DecidableEq, Repr

/-- Internal sound representation (`Data::NotifySound`): a struct whose
default-constructed state is the "default sound" state. -/
structure NotifySound where
  none : Bool := false
  id : Int := 0
  title : String := ""
  data : String := ""
deriving DecidableEq, Repr

/-- `ParseSound` from the source: match on the wire variant tag. -/
def ParseSound : NotificationSound → NotifySound
  | .notificationSoundDefault => {}
  | .notificationSoundNone => { none := true }
  | .notificationSoundLocal title data => { title := title, data := data }
  | .notificationSoundRingtone id => { id := id }

/-- `SerializeSound` from the source.  A C++ `std::optional<NotifySound>`
argument that is `nullopt` yields a default-constructed (uninitialized)
`MTPNotificationSound` object, modelled by `Option.none` on the wire side;
otherwise the conditional chain none / ringtone / local / default. -/
def SerializeSound : Option NotifySound → Option NotificationSound
  | Option.none => Option.none
  | some s =>
    some (if s.none then .notificationSoundNone
      else if s.id ≠ 0 then .notificationSoundRingtone s.id
      else if ¬s.title.isEmpty then .notificationSoundLocal s.title s.data
      else .notificationSoundDefault)

/-- Modelled from the spec (§3, claim C5): the state invariant of
`NotifySound` — exactly one of: default with all fields empty, explicit
none, local with non-empty title, ringtone with non-zero id.  The header
declaring the struct is not under src/, so the invariant follows the
spec's words. -/
def NotifySound.WellFormed (s : NotifySound) : Prop :=
  s = {} ∨
  s = { none := true } ∨
  (s.none = false ∧ s.id = 0 ∧ s.title ≠ "") ∨
  (s.none = false ∧ s.id ≠ 0 ∧ s.title = "" ∧ s.data = "")

instance (s : NotifySound) : Decidable s.WellFormed := by
  unfold NotifySound.WellFormed; infer_instance

/-- The remote settings record `MTPDpeerNotifySettings`.  A field is
`some` exactly when its flag bit is set in the record's flags bitmask
(the MTP deserializer enforces this correspondence); the flags value
itself is recovered by `flags` below. -/
structure MTPDpeerNotifySettings where
  show_previews : Option Bool := Option.none
  silent : Option Bool := Option.none
  mute_until : Option Int := Option.none
  ios_sound : Option NotificationSound := Option.none
  android_sound : Option NotificationSound := Option.none
  other_sound : Option NotificationSound := Option.none
deriving DecidableEq, Repr

/-- Flags bitmask of a remote record, with the scheme's bit assignment:
show_previews = bit 0, silent = bit 1, mute_until = bit 2,
ios_sound = bit 3, android_sound = bit 4, other_sound = bit 5. -/
def MTPDpeerNotifySettings.flags (d : MTPDpeerNotifySettings) : Nat :=
  (if d.show_previews.isSome then 1 else 0)
    + (if d.silent.isSome then 2 else 0)
    + (if d.mute_until.isSome then 4 else 0)
    + (if d.ios_sound.isSome then 8 else 0)
    + (if d.android_sound.isSome then 16 else 0)
    + (if d.other_sound.isSome then 32 else 0)

/-- The outgoing wire record `MTPinputPeerNotifySettings`: an explicit
flags bitmask plus the four payload slots.  A slot holding `Option.none`
models a default-constructed (uninitialized) MTP object in that
position, as produced by `DefaultSettings`. -/
structure MTPinputPeerNotifySettings where
  flags : Nat
  show_previews : Option Bool
  silent : Option Bool
  mute_until : Option Int
  sound : Option NotificationSound
deriving DecidableEq, Repr

/-- `DefaultSettings` from the source: zero flags, every slot a
default-constructed MTP object. -/
def DefaultSettings : MTPinputPeerNotifySettings :=
  ⟨0, Option.none, Option.none, Option.none, Option.none⟩

/-- `Data::NotifySettingsValue`: the four optional fields of a peer
whose settings are known non-empty. -/
structure NotifySettingsValue where
  _mute : Option Int := Option.none
  _sound : Option NotifySound := Option.none
  _silent : Option Bool := Option.none
  _showPreviews : Option Bool := Option.none
deriving DecidableEq, Repr

/-- The private four-field merge
`NotifySettingsValue::change(mute, sound, showPreviews, silentPosts)`:
compare all four candidates with the current fields; if all equal,
return `false` and change nothing, else overwrite all four and return
`true`. -/
def NotifySettingsValue.change4 (v : NotifySettingsValue)
    (mute : Option Int) (sound : Option NotifySound)
    (showPreviews : Option Bool) (silentPosts : Option Bool) :
    Bool × NotifySettingsValue :=
  if v._mute = mute ∧ v._sound = sound ∧ v._showPreviews = showPreviews
      ∧ v._silent = silentPosts then
    (false, v)
  else
    (true, { _mute := mute, _sound := sound, _silent := silentPosts,
             _showPreviews := showPreviews })

/-- `NotifySettingsValue::change(const MTPDpeerNotifySettings &)`:
extract the optional fields of the record (parsing the other-sound slot)
and run the four-field merge on them. -/
def NotifySettingsValue.changeData (v : NotifySettingsValue)
    (data : MTPDpeerNotifySettings) : Bool × NotifySettingsValue :=
  v.change4 data.mute_until (data.other_sound.map ParseSound)
    data.show_previews data.silent

/-- The `NotifySettingsValue` constructor: default-initialized fields,
then `change(data)` (the returned flag is discarded). -/
def NotifySettingsValue.ofData (data : MTPDpeerNotifySettings) :
    NotifySettingsValue :=
  (NotifySettingsValue.changeData {} data).2

/-- `NotifySettingsValue::change(muteForSeconds, silentPosts)`: a
provided `muteForSeconds` is absolute — positive stores `now + m`,
otherwise 0; an absent one keeps the stored mute.  `silentPosts`
overrides when provided.  Sound and show-previews are carried over. -/
def NotifySettingsValue.changeLocal (v : NotifySettingsValue)
    (now : Int) (muteForSeconds : Option Int) (silentPosts : Option Bool) :
    Bool × NotifySettingsValue :=
  let newMute := match muteForSeconds with
    | some m => some (if m > 0 then now + m else 0)
    | Option.none => v._mute
  let newSilentPosts := match silentPosts with
    | some s => some s
    | Option.none => v._silent
  v.change4 newMute v._sound v._showPreviews newSilentPosts

/-- `NotifySettingsValue::serialize`: one flag bit per present field
(mute_until = bit 2, sound = bit 3, silent = bit 1, show_previews =
bit 0 of the input-record scheme), with absent fields emitted as their
neutral wire defaults and the sound through `SerializeSound`. -/
def NotifySettingsValue.serialize (v : NotifySettingsValue) :
    MTPinputPeerNotifySettings :=
  { flags := (if v._mute.isSome then 4 else 0)
      + (if v._sound.isSome then 8 else 0)
      + (if v._silent.isSome then 2 else 0)
      + (if v._showPreviews.isSome then 1 else 0)
    show_previews := some (v._showPreviews.getD true)
    silent := some (v._silent.getD false)
    mute_until := some (v._mute.getD 0)
    sound := SerializeSound v._sound }

/-- Accessor `NotifySettingsValue::muteUntil`. -/
def NotifySettingsValue.muteUntil (v : NotifySettingsValue) : Option Int :=
  v._mute

/-- Accessor `NotifySettingsValue::silentPosts`. -/
def NotifySettingsValue.silentPosts (v : NotifySettingsValue) : Option Bool :=
  v._silent

/-- `Data::NotifySettings`: the per-peer tracker, default-constructed
with `_known = false` and no value. -/
structure NotifySettings where
  _known : Bool := false
  _value : Option NotifySettingsValue := Option.none
deriving DecidableEq, Repr

/-- `NotifySettings::change(const MTPPeerNotifySettings &)` (applyRemote):
a zero-flags record collapses to known-empty (returning whether that was
a change); otherwise delegate to the value's merge, or construct a fresh
value and mark the tracker known. -/
def NotifySettings.change (t : NotifySettings)
    (data : MTPDpeerNotifySettings) : Bool × NotifySettings :=
  if data.flags = 0 then
    if ¬t._known ∨ t._value.isSome then
      (true, { _known := true, _value := Option.none })
    else
      (false, t)
  else
    match t._value with
    | some v =>
      let r := v.changeData data
      (r.1, { t with _value := some r.2 })
    | Option.none =>
      (true, { _known := true, _value := some (NotifySettingsValue.ofData data) })

/-- `NotifySettings::change(muteForSeconds, silentPosts)` (applyLocal):
no-op when both arguments are absent; delegate to the value's local
merge when a value exists; otherwise synthesize a remote-shaped record
carrying only the provided fields (mute-until set to `now + m`) and
route it through the remote path. -/
def NotifySettings.changeLocal (t : NotifySettings)
    (now : Int) (muteForSeconds : Option Int) (silentPosts : Option Bool) :
    Bool × NotifySettings :=
  if muteForSeconds = Option.none ∧ silentPosts = Option.none then
    (false, t)
  else
    match t._value with
    | some v =>
      let r := v.changeLocal now muteForSeconds silentPosts
      (r.1, { t with _value := some r.2 })
    | Option.none =>
      let muteUntil := match muteForSeconds with
        | some m => now + m
        | Option.none => 0
      t.change
        { silent := silentPosts
          mute_until := if muteForSeconds.isSome then some muteUntil
            else Option.none }

/-- `NotifySettings::muteUntil`: delegate to the value if present. -/
def NotifySettings.muteUntil (t : NotifySettings) : Option Int :=
  match t._value with
  | some v => v.muteUntil
  | Option.none => Option.none

/-- `NotifySettings::settingsUnknown`. -/
def NotifySettings.settingsUnknown (t : NotifySettings) : Bool :=
  !t._known

/-- `NotifySettings::silentPosts`: delegate to the value if present. -/
def NotifySettings.silentPosts (t : NotifySettings) : Option Bool :=
  match t._value with
  | some v => v.silentPosts
  | Option.none => Option.none

/-- `NotifySettings::serialize`: delegate to the value, else the
canonical default record. -/
def NotifySettings.serialize (t : NotifySettings) :
    MTPinputPeerNotifySettings :=
  match t._value with
  | some v => v.serialize
  | Option.none => DefaultSettings

/-- An operation on a tracker: a remote update or a local edit (the
local edit carries the current time the time source would report). -/
inductive Op where
  | applyRemote (data : MTPDpeerNotifySettings)
  | applyLocal (now : Int) (muteForSeconds : Option Int)
      (silentPosts : Option Bool)
deriving DecidableEq, Repr

/-- Apply one operation, discarding the changed flag. -/
def NotifySettings.apply (t : NotifySettings) : Op → NotifySettings
  | .applyRemote data => (t.change data).2
  | .applyLocal now m s => (t.changeLocal now m s).2

/-- Run a sequence of operations from a given tracker state. -/
def NotifySettings.run (t : NotifySettings) (ops : List Op) :
    NotifySettings :=
  ops.foldl NotifySettings.apply t

/-! ### Helper lemmas -/

/-- The four-field merge always leaves the four fields equal to the four
candidates. -/
lemma change4_fields (v : NotifySettingsValue) (a : Option Int)
    (b : Option NotifySound) (c d : Option Bool) :
    ((v.change4 a b c d).2)._mute = a ∧ ((v.change4 a b c d).2)._sound = b
      ∧ ((v.change4 a b c d).2)._showPreviews = c
      ∧ ((v.change4 a b c d).2)._silent = d := by
  unfold NotifySettingsValue.change4
  split <;> simp_all

/-- Mute field of the merged value. -/
lemma change4_mute (v : NotifySettingsValue) (a : Option Int)
    (b : Option NotifySound) (c d : Option Bool) :
    ((v.change4 a b c d).2)._mute = a :=
  (change4_fields v a b c d).1

/-- Silent field of the merged value. -/
lemma change4_silent (v : NotifySettingsValue) (a : Option Int)
    (b : Option NotifySound) (c d : Option Bool) :
    ((v.change4 a b c d).2)._silent = d :=
  (change4_fields v a b c d).2.2.2

/-- Re-running the four-field merge with the same candidates reports no
change and leaves the value untouched. -/
lemma change4_fix (v : NotifySettingsValue) (a : Option Int)
    (b : Option NotifySound) (c d : Option Bool) :
    ((v.change4 a b c d).2).change4 a b c d = (false, (v.change4 a b c d).2) := by
  unfold NotifySettingsValue.change4
  split <;> simp_all

/-- Re-applying the same remote record to a value reports no change. -/
lemma changeData_fix (v : NotifySettingsValue) (r : MTPDpeerNotifySettings) :
    ((v.changeData r).2).changeData r = (false, (v.changeData r).2) := by
  unfold NotifySettingsValue.changeData
  exact change4_fix v _ _ _ _

/-- A local edit with both arguments absent is a no-op. -/
lemma changeLocal_none_none (t : NotifySettings) (now : Int) :
    t.changeLocal now Option.none Option.none = (false, t) := rfl

/-- The stored mute after a local edit of a value carrying a mute
argument. -/
lemma changeLocal_mute (v : NotifySettingsValue) (now m : Int)
    (s : Option Bool) :
    ((v.changeLocal now (some m) s).2)._mute
      = some (if m > 0 then now + m else 0) := by
  simp only [NotifySettingsValue.changeLocal]
  exact change4_mute _ _ _ _ _

/-- Tracker-level mute after a local edit with a mute argument when a
value exists. -/
lemma muteUntil_changeLocal_some (t : NotifySettings)
    (v : NotifySettingsValue) (now m : Int) (s : Option Bool)
    (hv : t._value = some v) :
    (t.changeLocal now (some m) s).2.muteUntil
      = some (if m > 0 then now + m else 0) := by
  unfold NotifySettings.changeLocal
  rw [hv]
  simp [NotifySettings.muteUntil, NotifySettingsValue.muteUntil,
    changeLocal_mute]

/-- On a tracker without a value, a local edit carrying a mute argument
is exactly the remote path applied to the synthesized record. -/
lemma changeLocal_noValue_eq (t : NotifySettings) (now k : Int)
    (s : Option Bool) (hv : t._value = Option.none) :
    t.changeLocal now (some k) s
      = t.change { silent := s, mute_until := some (now + k) } := by
  unfold NotifySettings.changeLocal
  rw [hv]
  simp

/-- A non-empty remote record applied to a tracker without a value
installs the record's mute-until verbatim. -/
lemma muteUntil_change_noValue (t : NotifySettings)
    (r : MTPDpeerNotifySettings) (hv : t._value = Option.none)
    (hr : r.flags ≠ 0) :
    (t.change r).2.muteUntil = r.mute_until := by
  unfold NotifySettings.change
  rw [if_neg hr, hv]
  simp [NotifySettings.muteUntil, NotifySettingsValue.ofData,
    NotifySettingsValue.changeData, NotifySettingsValue.muteUntil,
    change4_mute]

/-- The synthesized record of the mute-carrying local path has non-zero
flags. -/
lemma synth_flags_ne (now k : Int) (s : Option Bool) :
    MTPDpeerNotifySettings.flags
      { silent := s, mute_until := some (now + k) } ≠ 0 := by
  cases s <;> simp [MTPDpeerNotifySettings.flags]

/-- A remote update preserves the value-present-implies-known invariant. -/
lemma inv_change (t : NotifySettings) (r : MTPDpeerNotifySettings)
    (h : t._value.isSome = true → t._known = true) :
    ((t.change r).2)._value.isSome = true → ((t.change r).2)._known = true := by
  obtain ⟨k, val⟩ := t
  unfold NotifySettings.change
  cases k <;> cases val <;> split <;> simp_all

/-- A local edit preserves the value-present-implies-known invariant. -/
lemma inv_changeLocal (t : NotifySettings) (now : Int)
    (m : Option Int) (s : Option Bool)
    (h : t._value.isSome = true → t._known = true) :
    ((t.changeLocal now m s).2)._value.isSome = true →
      ((t.changeLocal now m s).2)._known = true := by
  obtain ⟨k, val⟩ := t
  unfold NotifySettings.changeLocal
  cases val with
  | none =>
    split
    · simp_all
    · exact inv_change ⟨k, Option.none⟩ _ h
  | some v => split <;> simp_all

/-- Every operation preserves the value-present-implies-known invariant. -/
lemma inv_apply (t : NotifySettings) (op : Op)
    (h : t._value.isSome = true → t._known = true) :
    ((t.apply op))._value.isSome = true → ((t.apply op))._known = true := by
  cases op with
  | applyRemote r => exact inv_change t r h
  | applyLocal now m s => exact inv_changeLocal t now m s h

/-- The invariant holds after any run from an invariant-satisfying state. -/
lemma inv_run (t : NotifySettings) (ops : List Op)
    (h : t._value.isSome = true → t._known = true) :
    ((t.run ops))._value.isSome = true → ((t.run ops))._known = true := by
  induction ops generalizing t with
  | nil => exact h
  | cons op ops ih => exact ih (t.apply op) (inv_apply t op h)

/-- After a remote update on an invariant-satisfying state, the tracker
is known. -/
lemma known_after_change (t : NotifySettings) (r : MTPDpeerNotifySettings)
    (h : t._value.isSome = true → t._known = true) :
    ((t.change r).2)._known = true := by
  obtain ⟨k, val⟩ := t
  unfold NotifySettings.change
  cases k <;> cases val <;> split <;> simp_all

/-- A local edit never clears the known flag. -/
lemma known_changeLocal (t : NotifySettings) (now : Int)
    (m : Option Int) (s : Option Bool) (h : t._known = true) :
    ((t.changeLocal now m s).2)._known = true := by
  obtain ⟨k, val⟩ := t
  unfold NotifySettings.changeLocal
  cases val with
  | none =>
    split
    · simp_all
    · exact known_after_change ⟨k, Option.none⟩ _ (fun _ => h)
  | some v => split <;> simp_all

/-- A local edit carrying at least one argument on a tracker without a
value routes through the remote construction path and therefore sets
the known flag. -/
lemma known_changeLocal_noValue (t : NotifySettings) (now : Int)
    (m : Option Int) (s : Option Bool) (hv : t._value = Option.none)
    (hns : ¬(m = Option.none ∧ s = Option.none)) :
    ((t.changeLocal now m s).2)._known = true := by
  unfold NotifySettings.changeLocal
  rw [if_neg hns, hv]
  exact known_after_change t _ (by simp [hv])

/-- No operation ever clears the known flag. -/
lemma known_mono (t : NotifySettings) (op : Op) (h : t._known = true) :
    ((t.apply op))._known = true := by
  cases op with
  | applyRemote r => exact known_after_change t r (fun _ => h)
  | applyLocal now m s => exact known_changeLocal t now m s h

/-! ### Claims -/

/-- Claim C10: decoding the wire ringtone variant with id 0 yields the
default `NotifySound` state (none = false, id = 0, empty title and
data), so re-encoding it produces the default-tag wire record rather
than ringtone(0); a ringtone with id 0 is not representable distinctly
from the default state. -/
theorem claim_C10 :
    ParseSound (.notificationSoundRingtone 0) = ({} : NotifySound)
    ∧ SerializeSound (some (ParseSound (.notificationSoundRingtone 0)))
        = some .notificationSoundDefault := by
  exact ⟨rfl, by decide⟩

/-- Claim C5: for every `NotifySound` satisfying the state invariant,
decode ∘ encode is the identity, and on the image of encode (restricted
to present sounds) encode ∘ decode is the identity. -/
theorem claim_C5 (s : NotifySound) (h : s.WellFormed) :
    Option.map ParseSound (SerializeSound (some s)) = some s
    ∧ SerializeSound (Option.map ParseSound (SerializeSound (some s)))
        = SerializeSound (some s) := by
  obtain h | h | ⟨h1, h2, h3⟩ | ⟨h1, h2, h3, h4⟩ := h
  · subst h; exact ⟨by decide, by decide⟩
  · subst h; exact ⟨by decide, by decide⟩
  · obtain ⟨n, i, ti, d⟩ := s
    simp only at h1 h2 h3
    subst h1; subst h2
    simp [SerializeSound, ParseSound, String.isEmpty_iff, h3]
  · obtain ⟨n, i, ti, d⟩ := s
    simp only at h1 h2 h3 h4
    subst h1; subst h3; subst h4
    simp [SerializeSound, ParseSound, h2]

/-- Witness for C5 at the ringtone sound with id 7. -/
theorem claim_C5_witness :
    NotifySound.WellFormed { id := 7 }
    ∧ (Option.map ParseSound (SerializeSound (some { id := 7 }))
          = some { id := 7 }
      ∧ SerializeSound (Option.map ParseSound
            (SerializeSound (some ({ id := 7 } : NotifySound))))
          = SerializeSound (some { id := 7 })) :=
  ⟨by decide, claim_C5 { id := 7 } (by decide)⟩

/-- Claim C1: applying a remote record with zero flags always collapses
the tracker to known-empty — `muteUntil` and `silentPosts` become
absent, `settingsUnknown` becomes false — and the call reports a change
exactly when the tracker was previously unknown or previously held a
value. -/
theorem claim_C1 (t : NotifySettings) (r : MTPDpeerNotifySettings)
    (h : r.flags = 0) :
    (t.change r).2.muteUntil = Option.none
    ∧ (t.change r).2.silentPosts = Option.none
    ∧ (t.change r).2.settingsUnknown = false
    ∧ (t.change r).1 = (!t._known || t._value.isSome) := by
  obtain ⟨k, val⟩ := t
  cases k <;> cases val <;>
    simp_all [NotifySettings.change, NotifySettings.muteUntil,
      NotifySettings.silentPosts, NotifySettings.settingsUnknown]

/-- Witness for C1 on a tracker holding a value, hit with the all-absent
record. -/
theorem claim_C1_witness :
    MTPDpeerNotifySettings.flags {} = 0
    ∧ (((⟨true, some { _mute := some 3 }⟩ : NotifySettings).change {}).2.muteUntil
          = Option.none
      ∧ ((⟨true, some { _mute := some 3 }⟩ : NotifySettings).change {}).2.silentPosts
          = Option.none
      ∧ ((⟨true, some { _mute := some 3 }⟩ : NotifySettings).change {}).2.settingsUnknown
          = false
      ∧ ((⟨true, some { _mute := some 3 }⟩ : NotifySettings).change {}).1
          = (!(⟨true, some { _mute := some 3 }⟩ : NotifySettings)._known
              || (⟨true, some { _mute := some 3 }⟩ : NotifySettings)._value.isSome)) :=
  ⟨rfl, claim_C1 ⟨true, some { _mute := some 3 }⟩ {} rfl⟩

/-- Claim C4: applying the same non-empty remote record twice in a row
reports no change on the second call and leaves the whole observable
state (muteUntil, silentPosts, settingsUnknown, serialize) — indeed the
whole tracker — identical to the state after the first call. -/
theorem claim_C4 (t : NotifySettings) (r : MTPDpeerNotifySettings)
    (h : r.flags ≠ 0) :
    (((t.change r).2).change r).1 = false
    ∧ (((t.change r).2).change r).2 = (t.change r).2
    ∧ (((t.change r).2).change r).2.muteUntil = (t.change r).2.muteUntil
    ∧ (((t.change r).2).change r).2.silentPosts = (t.change r).2.silentPosts
    ∧ (((t.change r).2).change r).2.settingsUnknown
        = (t.change r).2.settingsUnknown
    ∧ (((t.change r).2).change r).2.serialize = (t.change r).2.serialize := by
  have key : (((t.change r).2).change r).1 = false
      ∧ (((t.change r).2).change r).2 = (t.change r).2 := by
    obtain ⟨k, val⟩ := t
    cases val with
    | none =>
      simp only [NotifySettings.change, if_neg h]
      have := changeData_fix {} r
      simp_all [NotifySettingsValue.ofData]
    | some v =>
      simp only [NotifySettings.change, if_neg h]
      have := changeData_fix v r
      simp_all
  exact ⟨key.1, key.2, by rw [key.2], by rw [key.2], by rw [key.2],
    by rw [key.2]⟩

/-- Witness for C4 at a record carrying a mute-until and a ringtone
sound, applied twice to the fresh tracker. -/
theorem claim_C4_witness :
    MTPDpeerNotifySettings.flags
        { mute_until := some 7,
          other_sound := some (.notificationSoundRingtone 42) } ≠ 0
    ∧ (((({} : NotifySettings).change
          { mute_until := some 7,
            other_sound := some (.notificationSoundRingtone 42) }).2).change
          { mute_until := some 7,
            other_sound := some (.notificationSoundRingtone 42) }).1 = false :=
  ⟨by decide,
    (claim_C4 {}
      { mute_until := some 7,
        other_sound := some (.notificationSoundRingtone 42) } (by decide)).1⟩

/-- Claim C8: starting from the freshly constructed tracker, every
sequence of operations preserves the invariant that a present value
implies the known flag; consequently a tracker that is still unknown
holds no value, so its muteUntil and silentPosts are absent and its
serialization is the canonical default record. -/
theorem claim_C8 (ops : List Op) :
    ((NotifySettings.run {} ops)._value.isSome = true →
      (NotifySettings.run {} ops)._known = true)
    ∧ ((NotifySettings.run {} ops).settingsUnknown = true →
      (NotifySettings.run {} ops).muteUntil = Option.none
      ∧ (NotifySettings.run {} ops).silentPosts = Option.none
      ∧ (NotifySettings.run {} ops).serialize = DefaultSettings) := by
  have hinv := inv_run {} ops (by simp)
  refine ⟨hinv, fun hu => ?_⟩
  have hk : (NotifySettings.run {} ops)._known = false := by
    simpa [NotifySettings.settingsUnknown] using hu
  have hval : (NotifySettings.run {} ops)._value = Option.none := by
    cases hval : (NotifySettings.run {} ops)._value with
    | none => rfl
    | some v =>
      have := hinv (by simp [hval])
      rw [this] at hk
      exact absurd hk (by simp)
  simp [NotifySettings.muteUntil, NotifySettings.silentPosts,
    NotifySettings.serialize, hval]

/-- Witness for C8 after a local edit that creates a value. -/
theorem claim_C8_witness :
    (NotifySettings.run {} [Op.applyLocal 5 (some 60) Option.none])._known
      = true :=
  (claim_C8 [Op.applyLocal 5 (some 60) Option.none]).1 (by decide)

/-- Counterexample to C3: one local edit with a mute argument on the
freshly constructed tracker already makes `settingsUnknown` false,
although no remote record was ever applied. -/
theorem claim_C3_counterexample :
    (NotifySettings.run {}
        [Op.applyLocal 5 (some 3600) Option.none]).settingsUnknown = false := by
  decide

/-- Claim C3 as amended: `settingsUnknown` stays true under local edits
with both arguments absent; it is false after any remote update applied
to a reachable state; it also becomes false after every local edit
carrying at least one argument on a tracker without a value (the
synthesized-record path); and once false it stays false under every
further operation. -/
theorem claim_C3_amended (nows : List Int) (ops : List Op)
    (r : MTPDpeerNotifySettings) (op : Op) :
    (NotifySettings.run {}
        (nows.map fun n => Op.applyLocal n Option.none Option.none)).settingsUnknown
      = true
    ∧ ((NotifySettings.run {} ops).apply (Op.applyRemote r)).settingsUnknown
      = false
    ∧ (∀ (t : NotifySettings) (now : Int) (m : Option Int) (s : Option Bool),
        t._value = Option.none → ¬(m = Option.none ∧ s = Option.none) →
        (t.changeLocal now m s).2.settingsUnknown = false)
    ∧ (∀ t : NotifySettings, t.settingsUnknown = false →
        (t.apply op).settingsUnknown = false) := by
  refine ⟨?_, ?_, ?_, ?_⟩
  · have : ∀ (l : List Int) (t : NotifySettings),
        t.run (l.map fun n => Op.applyLocal n Option.none Option.none) = t := by
      intro l
      induction l with
      | nil => intro t; rfl
      | cons n l ih =>
        intro t
        have step : t.apply (Op.applyLocal n Option.none Option.none) = t := by
          simp [NotifySettings.apply, changeLocal_none_none]
        calc t.run (((n :: l).map fun n => Op.applyLocal n Option.none Option.none))
            = (t.apply (Op.applyLocal n Option.none Option.none)).run
                (l.map fun n => Op.applyLocal n Option.none Option.none) := rfl
          _ = t := by rw [step]; exact ih t
    rw [this nows {}]
    rfl
  · have hinv := inv_run {} ops (by simp)
    have := known_after_change (NotifySettings.run {} ops) r hinv
    simp [NotifySettings.apply, NotifySettings.settingsUnknown, this]
  · intro t now m s hv hns
    have := known_changeLocal_noValue t now m s hv hns
    simp [NotifySettings.settingsUnknown, this]
  · intro t ht
    have hk : t._known = true := by
      simpa [NotifySettings.settingsUnknown] using ht
    have := known_mono t op hk
    simp [NotifySettings.settingsUnknown, this]

/-- Witness for C3's amended statement at concrete inputs: two no-op
local edits keep the fresh tracker unknown, a remote empty record after
one local edit leaves it known, a mute-carrying local edit on the fresh
(value-less) tracker makes it known, and a known tracker stays known
under a further local edit. -/
theorem claim_C3_amended_witness :
    (NotifySettings.run {}
        ([1, 2].map fun n => Op.applyLocal n Option.none Option.none)).settingsUnknown
      = true
    ∧ ((NotifySettings.run {} [Op.applyLocal 4 (some 9) Option.none]).apply
        (Op.applyRemote {})).settingsUnknown = false
    ∧ ((({} : NotifySettings).changeLocal 8 (some 0) Option.none).2).settingsUnknown
      = false
    ∧ ((⟨true, Option.none⟩ : NotifySettings).apply
        (Op.applyLocal 7 (some 1) (some true))).settingsUnknown = false := by
  have h := claim_C3_amended [1, 2] [Op.applyLocal 4 (some 9) Option.none] {}
    (Op.applyLocal 7 (some 1) (some true))
  exact ⟨h.1, h.2.1, h.2.2.1 {} 8 (some 0) Option.none rfl (by simp),
    h.2.2.2 ⟨true, Option.none⟩ rfl⟩

/-- Counterexample to C2: on the fresh tracker (no value) at time 5, a
local edit with muteForSeconds = 0 stores mute-until = 5, not the hard
override 0 the claim asserts for every prior state. -/
theorem claim_C2_counterexample :
    ((({} : NotifySettings).changeLocal 5 (some 0) Option.none).2).muteUntil
        = some 5
    ∧ ((({} : NotifySettings).changeLocal 5 (some 0) Option.none).2).muteUntil
        ≠ some 0 := by
  decide

/-- Claim C2 as amended: when a value exists, muteForSeconds = 0 stores
the hard override 0 and a positive m stores now + m; when no value
exists, the local edit routes through the remote construction path on a
synthesized record whose mute-until is now + m for every provided m
(including 0), so the stored mute is now + m rather than 0. -/
theorem claim_C2_amended (t : NotifySettings) (v : NotifySettingsValue)
    (now m k : Int) (s : Option Bool) (hm : 0 < m) :
    (t._value = some v →
      (t.changeLocal now (some 0) s).2.muteUntil = some 0
      ∧ (t.changeLocal now (some m) s).2.muteUntil = some (now + m))
    ∧ (t._value = Option.none →
      t.changeLocal now (some k) s
        = t.change { silent := s, mute_until := some (now + k) }
      ∧ (t.changeLocal now (some k) s).2.muteUntil = some (now + k)) := by
  constructor
  · intro hv
    refine ⟨?_, ?_⟩
    · rw [muteUntil_changeLocal_some t v now 0 s hv]; simp
    · rw [muteUntil_changeLocal_some t v now m s hv]; simp [hm]
  · intro hv
    refine ⟨changeLocal_noValue_eq t now k s hv, ?_⟩
    rw [changeLocal_noValue_eq t now k s hv,
      muteUntil_change_noValue t _ hv (synth_flags_ne now k s)]

/-- Witness for C2's amended statement: a tracker muted until 100 is
unmuted to 0 by a local edit with muteForSeconds = 0. -/
theorem claim_C2_amended_witness :
    ((⟨true, some { _mute := some 100 }⟩ : NotifySettings).changeLocal 5
        (some 0) Option.none).2.muteUntil = some 0 :=
  ((claim_C2_amended ⟨true, some { _mute := some 100 }⟩ { _mute := some 100 }
    5 3 0 Option.none (by decide)).1 rfl).1

/-- Claim C7: on a tracker whose value is muted until a future
timestamp, a local edit with muteForSeconds = 0 (and any silentPosts
argument) makes muteUntil return 0, not the prior future timestamp. -/
theorem claim_C7 (t : NotifySettings) (v : NotifySettingsValue)
    (now fut : Int) (s : Option Bool) (hv : t._value = some v)
    (hmute : v._mute = some fut) (hfut : now < fut) :
    (t.changeLocal now (some 0) s).2.muteUntil = some 0 := by
  rw [muteUntil_changeLocal_some t v now 0 s hv]
  simp

/-- Witness for C7: muted until 100, unmuted at time 5. -/
theorem claim_C7_witness :
    ((⟨true, some { _mute := some 100 }⟩ : NotifySettings).changeLocal 5
        (some 0) (some true)).2.muteUntil = some 0 :=
  claim_C7 ⟨true, some { _mute := some 100 }⟩ { _mute := some 100 } 5 100
    (some true) rfl rfl (by decide)

/-- Claim C9: a local edit with muteForSeconds = 0 on a tracker without
a value synthesizes a record with mute-until = now + 0, so muteUntil
afterwards is the current timestamp, whereas the same call on a tracker
holding a value yields 0. -/
theorem claim_C9 (t : NotifySettings) (v : NotifySettingsValue)
    (now : Int) (s : Option Bool) :
    (t._value = Option.none →
      (t.changeLocal now (some 0) s).2.muteUntil = some now)
    ∧ (t._value = some v →
      (t.changeLocal now (some 0) s).2.muteUntil = some 0) := by
  constructor
  · intro hv
    rw [changeLocal_noValue_eq t now 0 s hv,
      muteUntil_change_noValue t _ hv (synth_flags_ne now 0 s)]
    simp
  · intro hv
    rw [muteUntil_changeLocal_some t v now 0 s hv]
    simp

/-- Witness for C9: the fresh tracker at time 5 ends up muted until 5;
the same edit on a tracker with a value ends at 0. -/
theorem claim_C9_witness :
    ((({} : NotifySettings).changeLocal 5 (some 0) Option.none).2.muteUntil
        = some 5)
    ∧ ((⟨true, some { _mute := some 100 }⟩ : NotifySettings).changeLocal 5
        (some 0) Option.none).2.muteUntil = some 0 :=
  ⟨(claim_C9 {} { _mute := some 100 } 5 Option.none).1 rfl,
    (claim_C9 ⟨true, some { _mute := some 100 }⟩ { _mute := some 100 } 5
      Option.none).2 rfl⟩

/-- Counterexample to C6: a value with no sound field serializes its
sound slot as the default-constructed (uninitialized) wire object, not
as the default-tag sound record the claim asserts. -/
theorem claim_C6_counterexample :
    ((({} : NotifySettings).change { mute_until := some 10 }).2.serialize).sound
      ≠ some NotificationSound.notificationSoundDefault := by
  decide

/-- Claim C6 as amended: a tracker without a value serializes to the
canonical default record with zero flags; a tracker with a value emits
exactly one flag bit per present field (show-previews bit 0, silent
bit 1, mute-until bit 2, sound bit 3, no higher bit), absent fields as
the neutral defaults true / false / 0, and the sound slot through the
sound encoder — which yields the default-constructed wire object when
the sound field is absent. -/
theorem claim_C6_serialize (t : NotifySettings) (v : NotifySettingsValue) :
    (t._value = Option.none → t.serialize = DefaultSettings)
    ∧ (t._value = some v →
      (t.serialize.flags.testBit 0 = v._showPreviews.isSome
        ∧ t.serialize.flags.testBit 1 = v._silent.isSome
        ∧ t.serialize.flags.testBit 2 = v._mute.isSome
        ∧ t.serialize.flags.testBit 3 = v._sound.isSome
        ∧ t.serialize.flags < 16)
      ∧ t.serialize.show_previews = some (v._showPreviews.getD true)
      ∧ t.serialize.silent = some (v._silent.getD false)
      ∧ t.serialize.mute_until = some (v._mute.getD 0)
      ∧ t.serialize.sound = SerializeSound v._sound) := by
  constructor
  · intro hv
    simp [NotifySettings.serialize, hv]
  · intro hv
    have hs : t.serialize = v.serialize := by
      simp [NotifySettings.serialize, hv]
    rw [hs]
    obtain ⟨mu, so, si, sp⟩ := v
    cases mu <;> cases so <;> cases si <;> cases sp <;>
      simp [NotifySettingsValue.serialize] <;> decide

/-- Witness for C6's amended statement on a tracker with only a
mute-until field. -/
theorem claim_C6_serialize_witness :
    (⟨true, some { _mute := some 10 }⟩ : NotifySettings).serialize.mute_until
        = some 10
    ∧ (⟨true, some { _mute := some 10 }⟩ : NotifySettings).serialize.flags.testBit 2
        = true
    ∧ (⟨true, Option.none⟩ : NotifySettings).serialize = DefaultSettings := by
  have h1 := (claim_C6_serialize ⟨true, some { _mute := some 10 }⟩
    { _mute := some 10 }).2 rfl
  have h2 := (claim_C6_serialize ⟨true, Option.none⟩ {}).1 rfl
  exact ⟨h1.2.2.2.1, h1.1.2.2.1, h2⟩

end Data
